import Mathlib

/-!
Verification of the lnd channel-shell and watchtower ("sorceror") core.

The development shallowly embeds the two source files:
* `sorcedb.go` (package sorceror): the watchtower store `AddDesc`, `AddMsg`,
  `CheckTxids`, and the byte helpers `I64tB`, `U32tB`, over a model of the
  three-bucket bolt database.  Bolt `Update` transactions roll back on error;
  this is modelled by `AddMsg` returning the original store on error.
* `qlnshell.go` (package main): the shell commands `FundChannel`, `Push`,
  `CloseChannel`, `BreakChannel` over a model of the node environment
  (wallet adapter, peer connection, channel store).

Bytes are modelled as `List Nat` with entries below 256 where the source
guarantees it.  The elkrem package, the qln node helpers and lnutil are not
part of the embedded sources; those definitions are modelled from the spec
and carry a doc comment saying so.
-/

/-- U32tB from the source: uint32 to 4 bytes, big endian. -/
def u32tB (n : Nat) : List Nat :=
  [n / 2 ^ 24 % 256, n / 2 ^ 16 % 256, n / 2 ^ 8 % 256, n % 256]

/-- I64tB from the source: int64 to 8 bytes, big endian.  The argument is the
state number `elkr.UpTo()` (a uint64 cast to int64 in Go; the byte image is
the same), modelled as `Nat`. -/
def i64tB (n : Nat) : List Nat :=
  [n / 2 ^ 56 % 256, n / 2 ^ 48 % 256, n / 2 ^ 40 % 256, n / 2 ^ 32 % 256,
   n / 2 ^ 24 % 256, n / 2 ^ 16 % 256, n / 2 ^ 8 % 256, n % 256]

/-- Go `copy(dst[a:a+w], src)`: overwrite the window of width `w` starting at
offset `a` of `dst` with `min w src.length` leading bytes of `src`, keeping
the rest of `dst`. -/
def goCopy (dst : List Nat) (a w : Nat) (src : List Nat) : List Nat :=
  dst.take a ++ src.take (min w src.length) ++ dst.drop (a + min w src.length)

/-- Modelled from the spec: stand-in for the collision-resistant hash step of
the elkrem revocation hash chain (spec 4.1).  An injective function on the
abstract hash values; hash values are modelled as `Nat`. -/
def elkH (n : Nat) : Nat := 2 * n + 1

/-- Modelled from the spec: the secret at index `i` of the revocation hash
chain anchored at `root` (spec 4.1, sender.atIndex is deterministic from the
root). -/
def elkChain (root : Nat) : Nat → Nat
  | 0 => root
  | n + 1 => elkH (elkChain root n)

/-- Modelled from the spec: sender.atIndex, deterministic from the root
(spec 4.1). -/
def elkremSenderAtIndex (root i : Nat) : Option Nat :=
  some (elkChain root i)

/-- Modelled from the spec: the elkrem receiver, the verifier side of the
revocation hash chain (spec 4.1).  It retains the received hashes; `upTo` is
the number of hashes received (spec 8: after the nth completed update the
receiver contains exactly n hashes and its upTo = n). -/
structure ElkremReceiver where
  hashes : List Nat
  deriving DecidableEq

/-- Modelled from the spec: upTo, the insertion count of the receiver. -/
def ElkremReceiver.upTo (r : ElkremReceiver) : Nat := r.hashes.length

/-- Modelled from the spec: receiver.addNext fails if the hash is not
consistent with previously inserted hashes; otherwise it appends and
advances upTo (spec 4.1).  The first insertion cannot fail (it sets the
anchor of the chain); afterwards the only consistent next hash is the next
element of the chain. -/
def ElkremReceiver.addNext (r : ElkremReceiver) (h : Nat) : Option ElkremReceiver :=
  match r.hashes.getLast? with
  | none => some ⟨r.hashes ++ [h]⟩
  | some last => if h = elkH last then some ⟨r.hashes ++ [h]⟩ else none

/-- Modelled from the spec: receiver.atIndex yields the secret for
`i < upTo`, else fails (spec 4.1). -/
def ElkremReceiver.atIndex (r : ElkremReceiver) (i : Nat) : Option Nat :=
  r.hashes.get? i

/-- Modelled from the spec: receiver.toBytes, serialization of the retained
hashes plus upTo (spec 4.1). -/
def ElkremReceiver.toBytes (r : ElkremReceiver) : List Nat :=
  r.hashes.length :: r.hashes

/-- Modelled from the spec: receiver.fromBytes, inverse of toBytes; fails on
malformed input (spec 4.1). -/
def elkremReceiverFromBytes (b : List Nat) : Option ElkremReceiver :=
  match b with
  | [] => none
  | n :: rest => if rest.length = n then some ⟨rest⟩ else none

/-- StateMsg from the source: destination PKH script identifying the channel,
the next elkrem hash, the 64-byte signature and the 16-byte truncated txid of
the revoked commitment. -/
structure StateMsg where
  destPKHScript : List Nat
  elk : Nat
  sig : List Nat
  txid : List Nat
  deriving DecidableEq

/-- SorceDescriptor from the source: destination PKH script, the elkrem-zero
anchor, and `serialized`, modelled from the spec as the ToBytes image of the
descriptor (static data first; AddDesc stores its leading 96 bytes,
dropping elk0). -/
structure SorceDescriptor where
  destPKHScript : List Nat
  elkZero : Nat
  serialized : List Nat
  deriving DecidableEq

/-- A per-channel sub-bucket of BUCKETChandata: the three keys KEYStatic,
KEYElkRcv, KEYIdx are modelled as optional fields (absent key = `none`). -/
structure ChanBucket where
  staticData : Option (List Nat)
  elkRcv : Option (List Nat)
  idx : Option (List Nat)
  deriving DecidableEq

/-- The SorceDB: the three top-level buckets BUCKETPKHMap, BUCKETChandata,
BUCKETTxid, modelled as association lists (created at DB open, so always
present). -/
structure SorceDB where
  pkhMap : List (List Nat × List Nat)
  chandata : List (List Nat × ChanBucket)
  txids : List (List Nat × List Nat)
  deriving DecidableEq

/-- Bolt bucket Get: first value stored under the key, if any. -/
def assocGet {α : Type} (k : List Nat) : List (List Nat × α) → Option α
  | [] => none
  | (k', v) :: rest => if k = k' then some v else assocGet k rest

/-- Bolt bucket Put: overwrite the value under the key, or append it. -/
def assocPut {α : Type} (k : List Nat) (v : α) : List (List Nat × α) → List (List Nat × α)
  | [] => [(k, v)]
  | (k', v') :: rest => if k = k' then (k, v) :: rest else (k', v') :: assocPut k v rest

/-- AddDesc transaction body from the source: allocate the next channel index
from the PKH-map key count, create the channel bucket (error if it exists),
store the 96-byte static data, the elkrem receiver initialized with elkZero
(first add cannot fail), the index, and the index-to-PKH mapping. -/
def addDescTx (db : SorceDB) (sd : SorceDescriptor) : Except String SorceDB :=
  let cIdxBytes := u32tB db.pkhMap.length
  match assocGet sd.destPKHScript db.chandata with
  | some _ => .error "bucket already exists"
  | none =>
    let elkr : ElkremReceiver := (ElkremReceiver.addNext ⟨[]⟩ sd.elkZero).getD ⟨[]⟩
    let cbkt : ChanBucket :=
      { staticData := some (sd.serialized.take 96),
        elkRcv := some elkr.toBytes,
        idx := some cIdxBytes }
    .ok { db with
          chandata := assocPut sd.destPKHScript cbkt db.chandata,
          pkhMap := assocPut cIdxBytes sd.destPKHScript db.pkhMap }

/-- AddMsg transaction body from the source: look up the channel bucket, parse
the stored elkrem receiver, insert the message hash (error aborts), write the
receiver back, read the channel index, compose the 74-byte record
cIdx(4) | stateNum(6) | sig(64) and store it under the 8-byte truncated
txid. -/
def addMsgTx (db : SorceDB) (sm : StateMsg) : Except String SorceDB :=
  match assocGet sm.destPKHScript db.chandata with
  | none => .error "no bucket for channel"
  | some cbkt =>
    match elkremReceiverFromBytes (cbkt.elkRcv.getD []) with
    | none => .error "elkrem deserialize failed"
    | some elkr =>
      match elkr.addNext sm.elk with
      | none => .error "elkrem insertion failed"
      | some elkr' =>
        let stateNumBytes := i64tB elkr'.upTo
        let elkBytes := elkr'.toBytes
        let cbkt' := { cbkt with elkRcv := some elkBytes }
        let db' := { db with chandata := assocPut sm.destPKHScript cbkt' db.chandata }
        match cbkt'.idx with
        | none => .error "channel has no index"
        | some cIdxBytes =>
          let sigIdxBytes :=
            goCopy (goCopy (goCopy (List.replicate 74 0) 0 4 cIdxBytes)
                4 6 (stateNumBytes.drop 2)) 10 64 sm.sig
          .ok { db' with txids := assocPut (sm.txid.take 8) sigIdxBytes db'.txids }

/-- AddMsg from the source, with bolt Update semantics: the transaction body
runs atomically; on error the store is rolled back and the error returned. -/
def AddMsg (db : SorceDB) (sm : StateMsg) : SorceDB × Option String :=
  match addMsgTx db sm with
  | .ok db' => (db', none)
  | .error e => (db, some e)

/-- AddDesc from the source, with bolt Update semantics. -/
def AddDesc (db : SorceDB) (sd : SorceDescriptor) : SorceDB × Option String :=
  match addDescTx db sd with
  | .ok db' => (db', none)
  | .error e => (db, some e)

/-- The StateMsg built by CheckTxids for a hit: a zero-valued StateMsg with
the first 16 bytes of the matched txid copied in (the construction of the
remaining fields is left stubbed in the source). -/
def mkHitMsg (txid : List Nat) : StateMsg :=
  { destPKHScript := List.replicate 20 0,
    elk := 0,
    sig := List.replicate 64 0,
    txid := goCopy (List.replicate 16 0) 0 16 (txid.take 16) }

/-- The loop body of CheckTxids: for each incoming txid, Get on the 8-byte
truncated key; on a hit append the constructed StateMsg.  The store is
threaded through to express the read-only View transaction. -/
def checkLoop (db : SorceDB) : List (List Nat) → List StateMsg → SorceDB × List StateMsg
  | [], acc => (db, acc)
  | txid :: rest, acc =>
    match assocGet (txid.take 8) db.txids with
    | some _ => checkLoop db rest (acc ++ [mkHitMsg txid])
    | none => checkLoop db rest acc

/-- CheckTxids from the source: scan the txid bucket inside a read-only View
transaction and return the hits. -/
def CheckTxids (db : SorceDB) (inTxids : List (List Nat)) : SorceDB × List StateMsg :=
  checkLoop db inTxids []

/-- Modelled from the spec: strconv.ParseInt with bit size 32 applied to the
decimal rendering of `n`; succeeds exactly on the int32 range. -/
def parseInt32 (n : Int) : Option Int :=
  if -(2 ^ 31) ≤ n ∧ n < 2 ^ 31 then some n else none

/-- Go uint32 cast of an int64 value. -/
def toU32 (n : Int) : Nat := (n % (2 ^ 32 : Int)).toNat

/-- Modelled from the spec: a funding outpoint, transaction id (32 bytes)
plus output index (spec glossary). -/
structure OutPoint where
  hash : List Nat
  index : Nat
  deriving DecidableEq

/-- Modelled from the spec: lnutil.OutPointToBytes, the 36-byte serialized
outpoint: 32-byte txid followed by the 4-byte output index (spec 6,
CLOSEREQ body: outpoint(36)). -/
def outPointToBytes (op : OutPoint) : List Nat :=
  op.hash ++ u32tB op.index

/-- Modelled from the spec: the 1-byte POINTREQ opcode (spec 6); the numeric
value is defined outside the embedded sources. -/
def MSGID_POINTREQ : Nat := 0x40

/-- Modelled from the spec: the 1-byte CLOSEREQ opcode (spec 6); the numeric
value is defined outside the embedded sources. -/
def MSGID_CLOSEREQ : Nat := 0x44

/-- Modelled from the spec: the slice of a qln channel used by the shell
commands: the Closed flag of its close data, the elkrem sender root and
receiver, the pending delta of its state, and the funding outpoint. -/
structure Qchan where
  closed : Bool
  elkSnd : Nat
  elkRcv : ElkremReceiver
  delta : Int
  op : OutPoint
  deriving DecidableEq

/-- Observable actions of a shell command on the node, its peer connection
and the chain: a written peer message, the InProg funding reservation, a
channel push, a broadcast transaction. -/
inductive Effect where
  | wroteMsg (msg : List Nat)
  | setInProg (peerIdx cIdx : Nat) (amt initSend : Int)
  | pushedChannel (amt : Nat)
  | broadcastTx (tx : List Nat)
  deriving DecidableEq

/-- Modelled from the spec: the node environment the shell commands call into
(LNode, its channel store, the peer connection and the wallet adapter, all
outside the embedded sources).  Fallible calls return `Option`; for the
error-only calls `some` is the error. -/
structure LnEnv where
  connected : Bool
  inProgPeerIdx : Nat
  pickUtxos : Int → Option Unit
  nextIdxForPeer : Option (Nat × Nat)
  getPeerIdx : Option Nat
  getQchanByIdx : Nat → Nat → Option Qchan
  reloadQchan : Qchan → Option Qchan
  pushChannel : Qchan → Nat → Option String
  signBreakTx : Qchan → Option (List Nat)
  pushTx : List Nat → Option String
  simpleCloseTx : Qchan → Option (List Nat)
  signSimpleClose : Qchan → List Nat → Option (List Nat)
  writeErr : Option String

/-- True exactly on the error constructor. -/
def isErr : Except String Unit → Bool
  | .error _ => true
  | .ok _ => false

/-- FundChannel from the source: argument, connection, in-progress and bounds
checks, then PickUtxos, index reservation, the InProg assignments and the
POINTREQ write, whose error is returned. -/
def FundChannel (env : LnEnv) (args : List Int) : Except String Unit × List Effect :=
  match args with
  | cCapRaw :: iSendRaw :: _ =>
    if env.connected then
      if env.inProgPeerIdx ≠ 0 then (.error "channel with peer not done yet", [])
      else
        match parseInt32 cCapRaw with
        | none => (.error "capacity out of range", [])
        | some cCap =>
          match parseInt32 iSendRaw with
          | none => (.error "initialSend out of range", [])
          | some iSend =>
            if iSend < 0 ∨ cCap < 0 then
              (.error "negative send or capacity", [])
            else if cCap < 1000000 then (.error "min channel capacity 1M sat", [])
            else if iSend > cCap then (.error "more send than capacity", [])
            else
              match env.pickUtxos cCap with
              | none => (.error "PickUtxos failed", [])
              | some _ =>
                match env.nextIdxForPeer with
                | none => (.error "NextIdxForPeer failed", [])
                | some (peerIdx, cIdx) =>
                  let efs := [Effect.setInProg peerIdx cIdx cCap iSend,
                              Effect.wroteMsg [MSGID_POINTREQ]]
                  match env.writeErr with
                  | some e => (.error e, efs)
                  | none => (.ok (), efs)
    else (.error "not connected to anyone", [])
  | _ => (.error "need args", [])

/-- The range guard of Push from the source, line for line:
`amt > 100000000 || amt < 1`. -/
def pushAmtGuard (amt : Int) : Bool :=
  amt > 100000000 || amt < 1

/-- The push loop from the source: while times > 0, reload the channel and
call PushChannel, stopping on the first error. -/
def pushLoop (env : LnEnv) (qc : Qchan) (amt32 : Nat) :
    Nat → Except String Unit × List Effect
  | 0 => (.ok (), [])
  | times + 1 =>
    match env.reloadQchan qc with
    | none => (.error "ReloadQchan failed", [])
    | some qc' =>
      match env.pushChannel qc' amt32 with
      | some e => (.error e, [])
      | none =>
        let rest := pushLoop env qc' amt32 times
        (rest.1, Effect.pushedChannel amt32 :: rest.2)

/-- Push from the source: argument and connection checks, the four parses,
the amount range guard, peer and channel lookup, the Closed check, then the
push loop. -/
def Push (env : LnEnv) (args : List Int) : Except String Unit × List Effect :=
  match args with
  | pRaw :: cRaw :: amtRaw :: rest =>
    if env.connected then
      match parseInt32 pRaw with
      | none => (.error "peerIdx out of range", [])
      | some peerIdx64 =>
        match parseInt32 cRaw with
        | none => (.error "chanIdx out of range", [])
        | some cIdx64 =>
          match parseInt32 amtRaw with
          | none => (.error "amt out of range", [])
          | some amt =>
            match (match rest with | [] => some 1 | t :: _ => parseInt32 t) with
            | none => (.error "times out of range", [])
            | some times =>
              if pushAmtGuard amt then (.error "max push is 1 coin", [])
              else
                match env.getPeerIdx with
                | none => (.error "GetPeerIdx failed", [])
                | some currentPeerIdx =>
                  if toU32 peerIdx64 = currentPeerIdx then
                    match env.getQchanByIdx (toU32 peerIdx64) (toU32 cIdx64) with
                    | none => (.error "GetQchanByIdx failed", [])
                    | some qc =>
                      if qc.closed then (.error "channel is closed", [])
                      else pushLoop env qc (toU32 amt) times.toNat
                  else (.error "connected to a different peer", [])
    else (.error "not connected to anyone", [])
  | _ => (.error "need args", [])

/-- CloseChannel from the source: connection and argument checks, peer and
channel lookup, SimpleCloseTx and SignSimpleClose, then the CLOSEREQ message
opcode | outpoint | sig is written; the Write error is discarded and nil
returned. -/
def CloseChannel (env : LnEnv) (args : List Int) : Except String Unit × List Effect :=
  if env.connected then
    match args with
    | pRaw :: cRaw :: _ =>
      match parseInt32 pRaw with
      | none => (.error "peerIdx out of range", [])
      | some peerIdx64 =>
        match parseInt32 cRaw with
        | none => (.error "chanIdx out of range", [])
        | some cIdx64 =>
          match env.getPeerIdx with
          | none => (.error "GetPeerIdx failed", [])
          | some currentPeerIdx =>
            if toU32 peerIdx64 = currentPeerIdx then
              match env.getQchanByIdx (toU32 peerIdx64) (toU32 cIdx64) with
              | none => (.error "GetQchanByIdx failed", [])
              | some qc =>
                match env.simpleCloseTx qc with
                | none => (.error "SimpleCloseTx failed", [])
                | some tx =>
                  match env.signSimpleClose qc tx with
                  | none => (.error "SignSimpleClose failed", [])
                  | some sig =>
                    let msg := MSGID_CLOSEREQ :: (outPointToBytes qc.op ++ sig)
                    let _writeOutcome := env.writeErr
                    (.ok (), [Effect.wroteMsg msg])
            else (.error "connected to a different peer", [])
    | _ => (.error "need args", [])
  else (.error "not connected to anyone", [])

/-- BreakChannel from the source: argument checks, channel lookup, the two
elkrem index-0 probes, delta zeroed on the in-memory channel, SignBreakTx,
then the break transaction is broadcast via PushTx.  There is no check of
the Closed flag. -/
def BreakChannel (env : LnEnv) (args : List Int) : Except String Unit × List Effect :=
  match args with
  | pRaw :: cRaw :: _ =>
    match parseInt32 pRaw with
    | none => (.error "peerIdx out of range", [])
    | some peerIdx64 =>
      match parseInt32 cRaw with
      | none => (.error "chanIdx out of range", [])
      | some cIdx64 =>
        match env.getQchanByIdx (toU32 peerIdx64) (toU32 cIdx64) with
        | none => (.error "GetQchanByIdx failed", [])
        | some qc =>
          match elkremSenderAtIndex qc.elkSnd 0 with
          | none => (.error "elk send failed", [])
          | some _ =>
            match qc.elkRcv.atIndex 0 with
            | none => (.error "elk recv failed", [])
            | some _ =>
              let qc' := { qc with delta := 0 }
              match env.signBreakTx qc' with
              | none => (.error "SignBreakTx failed", [])
              | some tx =>
                match env.pushTx tx with
                | some e => (.error e, [Effect.broadcastTx tx])
                | none => (.ok (), [Effect.broadcastTx tx])
  | _ => (.error "need args", [])

/-- A 20-byte destination PKH script for concrete runs. -/
def pkhW : List Nat := List.replicate 20 7

/-- A concrete watchtower descriptor: chain anchored at 0, 100-byte
serialization. -/
def sdW : SorceDescriptor := ⟨pkhW, 0, List.replicate 100 9⟩

/-- The store after AddDesc on an empty store. -/
def dbW1 : SorceDB := (AddDesc ⟨[], [], []⟩ sdW).1

/-- First revoked txid (16 bytes). -/
def t1W : List Nat := List.replicate 16 0

/-- Second revoked txid: distinct from the first, same leading 8 bytes. -/
def t2W : List Nat := List.replicate 8 0 ++ 1 :: List.replicate 7 0

/-- First state message: the correct next chain hash. -/
def smW1 : StateMsg := ⟨pkhW, 1, List.replicate 64 1, t1W⟩

/-- Second state message: the correct hash after the first, under the
colliding txid. -/
def smW2 : StateMsg := ⟨pkhW, 3, List.replicate 64 2, t2W⟩

/-- A state message skipping a hash: h2 fed while only h0 is stored. -/
def smSkip : StateMsg := ⟨pkhW, 3, List.replicate 64 1, t1W⟩

/-- Store after the first state message. -/
def dbW2 : SorceDB := (AddMsg dbW1 smW1).1

/-- Store after both state messages. -/
def dbW3 : SorceDB := (AddMsg dbW2 smW2).1

/-- A concrete channel whose Closed flag is set. -/
def qcClosed : Qchan :=
  { closed := true, elkSnd := 0, elkRcv := ⟨[0]⟩, delta := 5,
    op := ⟨List.replicate 32 0, 1⟩ }

/-- A concrete healthy node environment connected to peer 1, holding
`qcClosed` at every index; every wallet call succeeds. -/
def envW : LnEnv :=
  { connected := true, inProgPeerIdx := 0,
    pickUtxos := fun _ => some (),
    nextIdxForPeer := some (1, 0),
    getPeerIdx := some 1,
    getQchanByIdx := fun _ _ => some qcClosed,
    reloadQchan := fun q => some q,
    pushChannel := fun _ _ => none,
    signBreakTx := fun _ => some [42],
    pushTx := fun _ => none,
    simpleCloseTx := fun _ => some [1],
    signSimpleClose := fun _ _ => some (List.replicate 64 3),
    writeErr := none }

/-- The environment `envW` with a failing peer-connection Write. -/
def envWriteFail : LnEnv := { envW with writeErr := some "write failed" }

example : (AddMsg dbW1 smW1).2 = none := by decide
example : (AddMsg dbW1 smSkip).2 = some "elkrem insertion failed" := by decide
example : (AddMsg dbW1 smSkip).1 = dbW1 := by decide
example : dbW3.txids.length = 1 := by decide
example : (CheckTxids dbW3 [t1W ++ List.replicate 16 0]).2.length = 1 := by decide
example : BreakChannel envW [1, 0] = (.ok (), [.broadcastTx [42]]) := rfl
example : (CloseChannel envW [1, 0]).1 = .ok () := rfl
example : (Push envW [1, 0, 0]).2 = [] := by decide
example : (FundChannel envW [0, 0]).2 = [] := by decide

theorem assocGet_assocPut_same {α : Type} (k : List Nat) (v : α)
    (l : List (List Nat × α)) : assocGet k (assocPut k v l) = some v := by
  induction l with
  | nil => simp [assocGet, assocPut]
  | cons hd tl ih =>
    obtain ⟨k', v'⟩ := hd
    by_cases h : k = k' <;> simp [assocGet, assocPut, h, ih]

theorem goCopy_exact (dst src : List Nat) (a w : Nat) (h : src.length = w) :
    goCopy dst a w src = dst.take a ++ src ++ dst.drop (a + w) := by
  subst h
  simp [goCopy]

theorem length_eq_four {l : List Nat} (h : l.length = 4) :
    ∃ x1 x2 x3 x4, l = [x1, x2, x3, x4] := by
  match l, h with
  | [x1, x2, x3, x4], _ => exact ⟨x1, x2, x3, x4, rfl⟩

theorem length_eq_six {l : List Nat} (h : l.length = 6) :
    ∃ x1 x2 x3 x4 x5 x6, l = [x1, x2, x3, x4, x5, x6] := by
  match l, h with
  | [x1, x2, x3, x4, x5, x6], _ => exact ⟨x1, x2, x3, x4, x5, x6, rfl⟩

theorem sigIdx_layout (cIdx s6 sig : List Nat) (h4 : cIdx.length = 4)
    (h6 : s6.length = 6) (h64 : sig.length = 64) :
    goCopy (goCopy (goCopy (List.replicate 74 0) 0 4 cIdx) 4 6 s6) 10 64 sig
      = cIdx ++ s6 ++ sig := by
  obtain ⟨a1, a2, a3, a4, rfl⟩ := length_eq_four h4
  obtain ⟨b1, b2, b3, b4, b5, b6, rfl⟩ := length_eq_six h6
  rw [goCopy_exact _ _ _ _ h64]
  simp [goCopy]

theorem i64tB_length (n : Nat) : (i64tB n).length = 8 := by
  simp [i64tB]

theorem i64tB_drop_two_length (n : Nat) : ((i64tB n).drop 2).length = 6 := by
  simp [i64tB]

theorem checkLoop_fst (db : SorceDB) (l : List (List Nat))
    (acc : List StateMsg) : (checkLoop db l acc).1 = db := by
  induction l generalizing acc with
  | nil => rfl
  | cons t rest ih =>
    unfold checkLoop
    cases h : assocGet (t.take 8) db.txids <;> simp [h, ih]

example : ElkremReceiver.addNext ⟨[0]⟩ 1 = some ⟨[0, 1]⟩ := by decide
example : ElkremReceiver.addNext ⟨[0]⟩ 3 = none := by decide
example : elkremReceiverFromBytes (ElkremReceiver.toBytes ⟨[0, 1]⟩) = some ⟨[0, 1]⟩ := by decide
example : (i64tB 2).drop 2 = [0, 0, 0, 0, 0, 2] := by decide

/-- C1: if inserting the message hash into the channel's stored elkrem
receiver fails, AddMsg returns an error and the entire store is unchanged:
the stored receiver (and everything else) is identical to its value before
the call and no txid record is written. -/
theorem addMsg_elk_fail_store_unchanged (db : SorceDB) (sm : StateMsg)
    (cbkt : ChanBucket) (elkr : ElkremReceiver)
    (hc : assocGet sm.destPKHScript db.chandata = some cbkt)
    (hp : elkremReceiverFromBytes (cbkt.elkRcv.getD []) = some elkr)
    (hf : elkr.addNext sm.elk = none) :
    (AddMsg db sm).1 = db ∧ ∃ e, (AddMsg db sm).2 = some e := by
  simp [AddMsg, addMsgTx, hc, hp, hf]

/-- The channel bucket stored by AddDesc in the concrete run. -/
def cbktW : ChanBucket :=
  ⟨some (List.replicate 96 9), some [1, 0], some [0, 0, 0, 0]⟩

/-- C1 witness: the scenario of spec section 8 case 4, feeding h0 then h2
(skipping h1); the second insertion fails and the store is unchanged. -/
theorem addMsg_elk_fail_store_unchanged_witness :
    (AddMsg dbW1 smSkip).1 = dbW1 ∧ ∃ e, (AddMsg dbW1 smSkip).2 = some e :=
  addMsg_elk_fail_store_unchanged dbW1 smSkip cbktW ⟨[0]⟩
    (by decide) (by decide) (by decide)

/-- C4: on every successful AddMsg, the record written under the 8-byte
truncated txid key is exactly 74 bytes: the 4-byte channel index, then the
6-byte state number (the receiver's upTo after the insertion, big-endian low
6 bytes of its 8-byte image), then the 64-byte signature. -/
theorem addMsg_record_layout (db : SorceDB) (sm : StateMsg) (cbkt : ChanBucket)
    (elkr elkr' : ElkremReceiver) (cIdxBytes : List Nat)
    (hc : assocGet sm.destPKHScript db.chandata = some cbkt)
    (hp : elkremReceiverFromBytes (cbkt.elkRcv.getD []) = some elkr)
    (ha : elkr.addNext sm.elk = some elkr')
    (hi : cbkt.idx = some cIdxBytes)
    (hil : cIdxBytes.length = 4)
    (hsl : sm.sig.length = 64) :
    (AddMsg db sm).2 = none ∧
    assocGet (sm.txid.take 8) (AddMsg db sm).1.txids
      = some (cIdxBytes ++ (i64tB elkr'.upTo).drop 2 ++ sm.sig) ∧
    ((i64tB elkr'.upTo).drop 2).length = 6 ∧
    (cIdxBytes ++ (i64tB elkr'.upTo).drop 2 ++ sm.sig).length = 74 := by
  have h6 : ((i64tB elkr'.upTo).drop 2).length = 6 := i64tB_drop_two_length _
  refine ⟨?_, ?_, h6, ?_⟩
  · simp [AddMsg, addMsgTx, hc, hp, ha, hi]
  · simp only [AddMsg, addMsgTx, hc, hp, ha, hi]
    rw [sigIdx_layout _ _ _ hil h6 hsl, assocGet_assocPut_same]
  · simp [List.length_append, hil, h6, hsl]

/-- C4 witness: the first concrete state message is stored as the 74-byte
record under the truncated txid. -/
theorem addMsg_record_layout_witness :
    (AddMsg dbW1 smW1).2 = none ∧
    assocGet (smW1.txid.take 8) (AddMsg dbW1 smW1).1.txids
      = some ([0, 0, 0, 0] ++ (i64tB (ElkremReceiver.upTo ⟨[0, 1]⟩)).drop 2 ++ smW1.sig) ∧
    ((i64tB (ElkremReceiver.upTo ⟨[0, 1]⟩)).drop 2).length = 6 ∧
    ([0, 0, 0, 0] ++ (i64tB (ElkremReceiver.upTo ⟨[0, 1]⟩)).drop 2 ++ smW1.sig).length = 74 :=
  addMsg_record_layout dbW1 smW1 cbktW ⟨[0]⟩ ⟨[0, 1]⟩ [0, 0, 0, 0]
    (by decide) (by decide) (by decide) (by decide) (by decide) (by decide)

/-- C2 (counterexample; code bug): two distinct revoked txids with identical
leading 8 bytes.  Both AddMsg calls succeed, but the txid bucket holds a
single record: the second Put overwrites the first under the shared key, and
CheckTxids on the first full txid returns one candidate, not both.  This
contradicts the claim (and the source's own comment that the value should be
two or more idx+sig structs). -/
theorem addMsg_collision_second_record_overwrites_first :
    (AddMsg dbW1 smW1).2 = none ∧ (AddMsg dbW2 smW2).2 = none ∧
    smW1.txid ≠ smW2.txid ∧ smW1.txid.take 8 = smW2.txid.take 8 ∧
    dbW3.txids.length = 1 ∧
    assocGet (smW1.txid.take 8) dbW2.txids
      ≠ assocGet (smW1.txid.take 8) dbW3.txids ∧
    (CheckTxids dbW3 [smW1.txid ++ List.replicate 16 0]).2.length = 1 := by
  decide

/-- A 74-byte idx+sig record whose signature bytes are all 5. -/
def recC6 : List Nat := u32tB 0 ++ [0, 0, 0, 0, 0, 2] ++ List.replicate 64 5

/-- A store holding `recC6` under a truncated txid key. -/
def dbC6 : SorceDB := ⟨[], [], [(List.replicate 8 0, recC6)]⟩

/-- A 32-byte block txid matching the stored record. -/
def tC6 : List Nat := List.replicate 32 0

/-- C6 (counterexample; code bug): on a hit, CheckTxids returns a stub
message carrying only the leading 16 txid bytes; its signature field is all
zero rather than the stored signature, and no field carries the recorded
channel index or state number, so the material to reconstruct the punishment
transaction is not returned. -/
theorem checkTxids_hit_returns_stub :
    (CheckTxids dbC6 [tC6]).2
      = [⟨List.replicate 20 0, 0, List.replicate 64 0, List.replicate 16 0⟩] ∧
    recC6.drop 10 = List.replicate 64 5 ∧
    (List.replicate 64 0 : List Nat) ≠ List.replicate 64 5 := by
  decide

/-- C7: CheckTxids leaves the watchtower store unchanged; the scan writes to
none of the buckets. -/
theorem checkTxids_store_unchanged (db : SorceDB) (inTxids : List (List Nat)) :
    (CheckTxids db inTxids).1 = db :=
  checkLoop_fst db inTxids []

/-- C3 (counterexample; code bug): BreakChannel on a channel whose Closed
flag is set is not rejected: it succeeds and broadcasts the break
transaction. -/
theorem breakChannel_closed_channel_not_rejected :
    qcClosed.closed = true ∧
    envW.getQchanByIdx 1 0 = some qcClosed ∧
    BreakChannel envW [1, 0] = (Except.ok (), [Effect.broadcastTx [42]]) :=
  ⟨rfl, rfl, rfl⟩

/-- C5: Push rejects amt below 1 and amt above 10^8 with an error before
sending any message or touching channel state (no effects), and every amount
in [1, 10^8] passes the range guard. -/
theorem push_amt_range_validation (env : LnEnv) (p c amt : Int)
    (rest : List Int) :
    ((amt < 1 ∨ amt > 100000000) →
      ∃ e, Push env (p :: c :: amt :: rest) = (Except.error e, [])) ∧
    (1 ≤ amt → amt ≤ 100000000 → pushAmtGuard amt = false) := by
  constructor
  · intro hbad
    simp only [Push]
    repeat' split
    all_goals first
      | exact ⟨_, rfl⟩
      | (exfalso; simp_all [pushAmtGuard, parseInt32]; omega)
  · intro h1 h2
    simp [pushAmtGuard]
    omega

/-- C5 witness: a push of 0 is rejected with no effects, and 5 passes the
range guard. -/
theorem push_amt_range_validation_witness :
    (∃ e, Push envW (1 :: 0 :: 0 :: []) = (Except.error e, [])) ∧
    pushAmtGuard 5 = false :=
  ⟨(push_amt_range_validation envW 1 0 0 []).1 (by decide),
   (push_amt_range_validation envW 1 0 5 []).2 (by decide) (by decide)⟩

/-- C8: on a successful cooperative-close initiation, the message written to
the peer is exactly the 1-byte CLOSEREQ opcode, the 36-byte serialized
funding outpoint, and the 64-byte signature. -/
theorem closeChannel_closereq_layout (env : LnEnv) (p c : Int)
    (rest : List Int) (qc : Qchan) (tx sig : List Nat)
    (hcon : env.connected = true)
    (hpp : parseInt32 p = some p)
    (hcc : parseInt32 c = some c)
    (hpeer : env.getPeerIdx = some (toU32 p))
    (hq : env.getQchanByIdx (toU32 p) (toU32 c) = some qc)
    (ht : env.simpleCloseTx qc = some tx)
    (hs : env.signSimpleClose qc tx = some sig)
    (hop : qc.op.hash.length = 32)
    (hsig : sig.length = 64) :
    CloseChannel env (p :: c :: rest)
      = (Except.ok (),
         [Effect.wroteMsg (MSGID_CLOSEREQ :: (outPointToBytes qc.op ++ sig))]) ∧
    (outPointToBytes qc.op).length = 36 ∧
    (MSGID_CLOSEREQ :: (outPointToBytes qc.op ++ sig)).length = 101 := by
  refine ⟨?_, ?_, ?_⟩
  · simp [CloseChannel, hcon, hpp, hcc, hpeer, hq, ht, hs]
  · simp [outPointToBytes, u32tB, hop]
  · simp [outPointToBytes, u32tB, hop, hsig]

/-- C8 witness: the concrete environment writes the 101-byte CLOSEREQ. -/
theorem closeChannel_closereq_layout_witness :
    CloseChannel envW (1 :: 0 :: [])
      = (Except.ok (),
         [Effect.wroteMsg
            (MSGID_CLOSEREQ :: (outPointToBytes qcClosed.op ++ List.replicate 64 3))]) ∧
    (outPointToBytes qcClosed.op).length = 36 ∧
    (MSGID_CLOSEREQ :: (outPointToBytes qcClosed.op ++ List.replicate 64 3)).length = 101 :=
  closeChannel_closereq_layout envW 1 0 [] qcClosed [1] (List.replicate 64 3)
    rfl (by decide) (by decide) rfl rfl rfl rfl (by decide) (by decide)

/-- C9 (implicit): CloseChannel returns success even when the peer-connection
Write fails; the error of the final network write is discarded. -/
theorem closeChannel_ok_despite_write_failure (env : LnEnv) (p c : Int)
    (rest : List Int) (qc : Qchan) (tx sig : List Nat) (e : String)
    (hcon : env.connected = true)
    (hpp : parseInt32 p = some p)
    (hcc : parseInt32 c = some c)
    (hpeer : env.getPeerIdx = some (toU32 p))
    (hq : env.getQchanByIdx (toU32 p) (toU32 c) = some qc)
    (ht : env.simpleCloseTx qc = some tx)
    (hs : env.signSimpleClose qc tx = some sig)
    (_hw : env.writeErr = some e) :
    (CloseChannel env (p :: c :: rest)).1 = Except.ok () := by
  simp [CloseChannel, hcon, hpp, hcc, hpeer, hq, ht, hs]

/-- C9 witness: with a failing Write, CloseChannel still returns success. -/
theorem closeChannel_ok_despite_write_failure_witness :
    (CloseChannel envWriteFail (1 :: 0 :: [])).1 = Except.ok () :=
  closeChannel_ok_despite_write_failure envWriteFail 1 0 [] qcClosed [1]
    (List.replicate 64 3) "write failed"
    rfl (by decide) (by decide) rfl rfl rfl rfl rfl

/-- C10: FundChannel rejects, with an error and without reserving indices or
writing POINTREQ (no effects), every pair with capacity below 1000000, a
negative value, or initialSend above capacity. -/
theorem fundChannel_bounds_rejected (env : LnEnv) (cCap iSend : Int)
    (rest : List Int)
    (h : cCap < 1000000 ∨ iSend < 0 ∨ cCap < 0 ∨ iSend > cCap) :
    ∃ e, FundChannel env (cCap :: iSend :: rest) = (Except.error e, []) := by
  simp only [FundChannel]
  repeat' split
  all_goals first
    | exact ⟨_, rfl⟩
    | (exfalso; simp_all [parseInt32]; omega)

/-- C10 witness: funding with capacity 0 is rejected with no effects. -/
theorem fundChannel_bounds_rejected_witness :
    ∃ e, FundChannel envW ((0 : Int) :: (0 : Int) :: []) = (Except.error e, []) :=
  fundChannel_bounds_rejected envW 0 0 [] (by decide)
